import Mathlib

/-!
Shallow embedding of the `backend-lycosidae` gateway routers and downstream
client, and proofs about their validation and orchestration logic.

The repository is a FastAPI gateway: route handlers authenticate a caller,
perform light validation, and forward to a downstream interpreter service
(data owner) and orchestrator service (container provisioning).  Each handler
is embedded as a pure function from the caller, the request payload, and an
abstract "world" (the responses the downstream services would give) to a
result of type `Except HTTPException α` paired with the ordered trace of
downstream calls the handler issues.
-/

namespace Lycosidae

/-- An application-level HTTP error, as raised by FastAPI `HTTPException`. -/
structure HTTPException where
  status_code : Nat
  detail : String
deriving DecidableEq, Repr

/-- The authenticated caller decoded by `get_current_user` (`AuthToken`). -/
structure AuthToken where
  id : String
  username : String
  role : String
deriving DecidableEq, Repr

/-- `SolveSubmitDTO`: a flag submission payload. -/
structure SolveSubmitDTO where
  competitions_id : String
  exercises_id : String
  flag : String
deriving DecidableEq, Repr

/-- `AttendanceCreateDTO`: `competitions_id` plus an optional `users_id`
(`None` by default); `none` and `some ""` are both falsy in Python. -/
structure AttendanceCreateDTO where
  competitions_id : String
  users_id : Option String
deriving DecidableEq, Repr

/-- `ContainerRequestDTO`: the deploy request body (`time_alive`). -/
structure ContainerRequestDTO where
  time_alive : Nat
deriving DecidableEq, Repr

/-- A competition date field as stored downstream: either convertible to a
UTC instant (an aware/naive datetime, or an ISO string that
`datetime.fromisoformat` accepts), or a malformed string on which
`ensure_utc` raises. -/
inductive DateField where
  | valid (t : Int)
  | malformed
deriving DecidableEq, Repr

/-- The competition record returned by `interpreter.get_competition`, with the
two fields `submit_flag` reads. -/
structure Competition where
  start_date : DateField
  end_date : DateField
deriving DecidableEq, Repr

/-- An exercise record in `interpreter.get_competition_exercises`, with the
`id` field the membership scan reads. -/
structure ExerciseRef where
  id : String
deriving DecidableEq, Repr

/-- The exercise record returned by `interpreter.get_exercise`, with the
fields `deploy_exercise_infrastructure` reads.  `docker_image = none` models
a record without the key; `some ""` is likewise falsy under `.get`. -/
structure ExerciseRec where
  name : String
  docker_image : Option String
deriving DecidableEq, Repr

/-- The body `deploy_exercise_infrastructure` sends to
`orchester.start_container`. -/
structure OrchesterPayload where
  image_link : String
  time_alive : Nat
  exercise_name : String
  callback_url : String
deriving DecidableEq, Repr

/-- The orchestrator's response to `start_container`, with the three fields
the handler reads. -/
structure OrchestratorResp where
  container_id : String
  host_port : Nat
  service_url : String
deriving DecidableEq, Repr

/-- `ContainerInternalDTO`: the registration record sent to
`interpreter.register_container`. -/
structure ContainerInternalDTO where
  docker_id : String
  image_tag : String
  port : Nat
  connection : String
deriving DecidableEq, Repr

/-- An attendance record in the history returned by
`interpreter.get_user_attendance`, with the `competitions_id` field the
duplicate scan reads. -/
structure AttendanceRec where
  competitions_id : String
deriving DecidableEq, Repr

/-- A participant record in `interpreter.get_competition_participants`, with
the `id` field the registration scan reads. -/
structure Participant where
  id : String
deriving DecidableEq, Repr

/-- The container record returned by `interpreter.get_container_by_exercise`,
with the fields `get_connection_info` reads. -/
structure ContainerRec where
  is_active : Bool
  connection : String
  port : Nat
deriving DecidableEq, Repr

/-- One downstream call issued by a handler, with its arguments. -/
inductive Call where
  | getCompetition (compId : String)
  | getCompetitionExercises (compId : String)
  | interpSubmitFlag (payload : SolveSubmitDTO) (userId : String)
  | getExercise (exId : String)
  | startContainer (body : OrchesterPayload)
  | registerContainer (data : ContainerInternalDTO) (exId : String)
  | interpListAllExercises
  | getUserAttendance (userId : String)
  | recordAttendance (payload : AttendanceCreateDTO) (userId : String)
  | getCompetitionParticipants (compId : String)
  | getScoreboard (compId : String)
  | getContainerByExercise (exId : String)
deriving DecidableEq, Repr

/-- The downstream responses visible to `submit_flag`: what
`interpreter.get_competition`, `interpreter.get_competition_exercises` and
`interpreter.submit_flag` would return. -/
structure SubmitFlagWorld where
  getCompetition : String → Option Competition
  getCompetitionExercises : String → List ExerciseRef
  submitFlagResp : SolveSubmitDTO → String → String

/-- `ensure_utc` from `submit_flag`: normalises a date field to a UTC
instant, raising (here: `none`) on a malformed string. -/
def ensure_utc : DateField → Option Int
  | .valid t => some t
  | .malformed => none

/-- `submit_flag` (routers/exercises.py): validates the competition window
and the exercise-to-competition membership, then forwards to
`interpreter.submit_flag`.  Returns the handler outcome and the ordered
trace of downstream calls. -/
def submit_flag (w : SubmitFlagWorld) (now : Int) (payload : SolveSubmitDTO)
    (user : AuthToken) : Except HTTPException String × List Call :=
  let calls := [Call.getCompetition payload.competitions_id]
  match w.getCompetition payload.competitions_id with
  | none => (.error ⟨404, "Competição não encontrada"⟩, calls)
  | some comp =>
    match ensure_utc comp.start_date, ensure_utc comp.end_date with
    | some start_date, some end_date =>
      if now < start_date then
        (.error ⟨400, "A competição ainda não começou"⟩, calls)
      else if end_date < now then
        (.error ⟨400, "A competição já terminou"⟩, calls)
      else
        let calls := calls ++ [Call.getCompetitionExercises payload.competitions_id]
        let comp_exercises := w.getCompetitionExercises payload.competitions_id
        if comp_exercises.any (fun ex => ex.id == payload.exercises_id) then
          (.ok (w.submitFlagResp payload user.id),
            calls ++ [Call.interpSubmitFlag payload user.id])
        else
          (.error ⟨400, "Este exercício não pertence a esta competição"⟩, calls)
    | _, _ =>
      (.error ⟨500, "Erro interno ao processar datas da competição"⟩, calls)

/-- The downstream responses visible to `deploy_exercise_infrastructure`. -/
structure DeployWorld where
  getExercise : String → Option ExerciseRec
  startContainer : OrchesterPayload → OrchestratorResp
  registerContainerResp : ContainerInternalDTO → String → String

/-- `deploy_exercise_infrastructure` (routers/exercises.py): admin-only;
fetches the exercise, provisions a container via the orchestrator, then
registers it with the interpreter. -/
def deploy_exercise_infrastructure (w : DeployWorld) (ex_id : String)
    (payload : ContainerRequestDTO) (user : AuthToken) :
    Except HTTPException String × List Call :=
  if user.role ≠ "admin" then
    (.error ⟨403, "Acesso negado"⟩, [])
  else
    let calls := [Call.getExercise ex_id]
    match w.getExercise ex_id with
    | none => (.error ⟨400, "Exercício sem imagem Docker configurada"⟩, calls)
    | some exercise =>
      match exercise.docker_image with
      | none => (.error ⟨400, "Exercício sem imagem Docker configurada"⟩, calls)
      | some img =>
        if img = "" then
          (.error ⟨400, "Exercício sem imagem Docker configurada"⟩, calls)
        else
          let orchester_payload : OrchesterPayload :=
            { image_link := img
              time_alive := payload.time_alive
              exercise_name := exercise.name
              callback_url := "http://backend:8000/containers/callback" }
          let orchestrator_resp := w.startContainer orchester_payload
          let container_data : ContainerInternalDTO :=
            { docker_id := orchestrator_resp.container_id
              image_tag := img
              port := orchestrator_resp.host_port
              connection := orchestrator_resp.service_url }
          (.ok (w.registerContainerResp container_data ex_id),
            calls ++ [Call.startContainer orchester_payload,
                      Call.registerContainer container_data ex_id])

/-- The downstream responses visible to `list_all_exercises`. -/
structure ExercisesListWorld where
  listAllExercisesResp : List ExerciseRef

/-- `list_all_exercises` (routers/exercises.py): forwards straight to
`interpreter.list_all_exercises`.  Its docstring says "Apenas admins podem
ver a biblioteca global de exercícios", but the body performs no role
check. -/
def list_all_exercises (w : ExercisesListWorld) (user : AuthToken) :
    Except HTTPException (List ExerciseRef) × List Call :=
  (.ok w.listAllExercisesResp, [Call.interpListAllExercises])

/-- The downstream responses visible to `record_attendance`. -/
structure AttendanceWorld where
  getUserAttendance : String → List AttendanceRec
  recordAttendanceResp : AttendanceCreateDTO → String → String

/-- The target-user selection in `record_attendance`:
`payload.users_id if (user.role == "admin" and payload.users_id) else
user.id`, with Python truthiness on `users_id`. -/
def target_user_id (user : AuthToken) (payload : AttendanceCreateDTO) : String :=
  match payload.users_id with
  | some uid => if user.role = "admin" ∧ uid ≠ "" then uid else user.id
  | none => user.id

/-- `record_attendance` (routers/attendance.py): resolves the target user,
rejects a duplicate attendance for the same competition with HTTP 400, and
otherwise records the attendance downstream. -/
def record_attendance (w : AttendanceWorld) (payload : AttendanceCreateDTO)
    (user : AuthToken) : Except HTTPException String × List Call :=
  let target := target_user_id user payload
  let calls := [Call.getUserAttendance target]
  let user_history := w.getUserAttendance target
  if user_history.any (fun att => att.competitions_id == payload.competitions_id) then
    (.error ⟨400, "Presença já registrada para este usuário nesta competição."⟩,
      calls)
  else
    (.ok (w.recordAttendanceResp payload target),
      calls ++ [Call.recordAttendance payload target])

/-- The downstream responses visible to `get_competition_scoreboard`. -/
structure ScoreboardWorld where
  getCompetitionParticipants : String → List Participant
  getScoreboard : String → List String

/-- `get_competition_scoreboard` (routers/scoreboard.py): admins see any
scoreboard; other callers must appear among the competition's participants,
otherwise HTTP 403. -/
def get_competition_scoreboard (w : ScoreboardWorld) (comp_id : String)
    (user : AuthToken) : Except HTTPException (List String) × List Call :=
  if user.role ≠ "admin" then
    let calls := [Call.getCompetitionParticipants comp_id]
    let participants := w.getCompetitionParticipants comp_id
    let is_registered := participants.any (fun p => p.id == user.id)
    if ¬ is_registered then
      (.error ⟨403, "Você precisa estar inscrito nesta competição para ver o placar."⟩,
        calls)
    else
      (.ok (w.getScoreboard comp_id), calls ++ [Call.getScoreboard comp_id])
  else
    (.ok (w.getScoreboard comp_id), [Call.getScoreboard comp_id])

/-- The downstream responses visible to `get_connection_info`. -/
structure ConnectionWorld where
  getContainerByExercise : String → Option ContainerRec

/-- `get_connection_info` (routers/exercises.py): looks up the exercise's
container and returns its connection data when active; `comp_id` is accepted
as a query parameter but never read, and no role check is performed. -/
def get_connection_info (w : ConnectionWorld) (ex_id comp_id : String)
    (user : AuthToken) : Except HTTPException (String × Nat) × List Call :=
  let calls := [Call.getContainerByExercise ex_id]
  match w.getContainerByExercise ex_id with
  | none =>
    (.error ⟨404, "A infraestrutura deste desafio não está ativa"⟩, calls)
  | some container =>
    if ¬ container.is_active then
      (.error ⟨404, "A infraestrutura deste desafio não está ativa"⟩, calls)
    else
      (.ok (container.connection, container.port), calls)

/-- What the transport layer hands `InterpreterClient._request`: either an
HTTP response (status code, the optional `detail` field of its JSON body,
and the body itself), or an `httpx.RequestError`. -/
inductive TransportResult where
  | response (status_code : Nat) (detail : Option String) (body : String)
  | requestError (excMsg : String)
deriving DecidableEq, Repr

/-- `InterpreterClient._request` (services/interpreter_client.py): maps the
transport outcome to `None`, a JSON body, or an `HTTPException`.  `.ok none`
models Python `None`; `.ok (some body)` models `response.json()`. -/
def _request : TransportResult → Except HTTPException (Option String)
  | .requestError excMsg =>
    .error ⟨503, "Falha de conexão: " ++ excMsg⟩
  | .response status_code detail body =>
    if status_code = 404 then .ok none
    else if status_code = 204 then .ok none
    else if 400 ≤ status_code ∧ status_code < 500 then
      .error ⟨status_code, detail.getD "Erro na requisição ao Interpreter"⟩
    else if 500 ≤ status_code then
      .error ⟨502, "Erro interno no Interpreter."⟩
    else .ok (some body)

/-- `InterpreterClient.delete_exercise`: a single `_request("DELETE", ...)`
whose outcome is whatever `_request` yields for the downstream response. -/
def delete_exercise (transport : TransportResult) :
    Except HTTPException (Option String) :=
  _request transport

/-! Concrete downstream worlds used to instantiate the theorems below. -/

/-- A competition whose window is the UTC instants `[10, 20]`. -/
def sampleComp : Competition := ⟨.valid 10, .valid 20⟩

/-- A concrete `submit_flag` world: one competition with one exercise. -/
def sfWorld : SubmitFlagWorld where
  getCompetition := fun c => if c = "comp1" then some sampleComp else none
  getCompetitionExercises := fun c => if c = "comp1" then [⟨"ex1"⟩] else []
  submitFlagResp := fun _ _ => "solved"

/-! Theorems -/

/-- C1: `submit_flag` forwards to the interpreter only inside the
competition's time window.  When the competition is missing the handler
fails with HTTP 404; when `now` is strictly before `start_date` it fails
with HTTP 400 "A competição ainda não começou"; when `now` is strictly after
`end_date` (and not before the start, which the handler checks first) it
fails with HTTP 400 "A competição já terminou"; in each failure case the
call trace contains no downstream `submit_flag` call, and whenever a
downstream `submit_flag` call appears in the trace, `now` lies within the
window. -/
theorem submit_flag_time_window (w : SubmitFlagWorld) (now : Int)
    (payload : SolveSubmitDTO) (user : AuthToken) :
    (w.getCompetition payload.competitions_id = none →
      submit_flag w now payload user =
        (.error ⟨404, "Competição não encontrada"⟩,
         [Call.getCompetition payload.competitions_id])) ∧
    (∀ comp s e, w.getCompetition payload.competitions_id = some comp →
      ensure_utc comp.start_date = some s →
      ensure_utc comp.end_date = some e →
      ((now < s →
          submit_flag w now payload user =
            (.error ⟨400, "A competição ainda não começou"⟩,
             [Call.getCompetition payload.competitions_id])) ∧
       (s ≤ now → e < now →
          submit_flag w now payload user =
            (.error ⟨400, "A competição já terminou"⟩,
             [Call.getCompetition payload.competitions_id])) ∧
       (∀ p uid, Call.interpSubmitFlag p uid ∈ (submit_flag w now payload user).2 →
          s ≤ now ∧ now ≤ e))) := by
  constructor
  · intro h
    simp [submit_flag, h]
  · intro comp s e hcomp hs he
    refine ⟨?_, ?_, ?_⟩
    · intro hlt
      simp [submit_flag, hcomp, hs, he, hlt]
    · intro hge hgt
      simp [submit_flag, hcomp, hs, he, not_lt.mpr hge, hgt]
    · intro p uid hmem
      constructor
      · by_contra hcon
        push_neg at hcon
        simp [submit_flag, hcomp, hs, he, hcon] at hmem
      · by_contra hcon
        push_neg at hcon
        rcases lt_or_le now s with h2 | h2
        · simp [submit_flag, hcomp, hs, he, h2] at hmem
        · simp [submit_flag, hcomp, hs, he, not_lt.mpr h2, hcon] at hmem

/-- Witness for C1: with the window `[10, 20]` and `now = 5`, the handler
rejects the submission with HTTP 400 and calls only `get_competition`. -/
theorem submit_flag_time_window_witness :
    submit_flag sfWorld 5 ⟨"comp1", "ex1", "flagx"⟩ ⟨"u1", "alice", "student"⟩ =
      (.error ⟨400, "A competição ainda não começou"⟩,
       [Call.getCompetition "comp1"]) :=
  ((submit_flag_time_window sfWorld 5 ⟨"comp1", "ex1", "flagx"⟩
      ⟨"u1", "alice", "student"⟩).2 sampleComp 10 20
    (by decide) (by decide) (by decide)).1 (by decide)

/-- The orchestrator request body the deploy handler builds for image `img`
and exercise name `name`. -/
def orchPayloadOf (img : String) (payload : ContainerRequestDTO)
    (name : String) : OrchesterPayload :=
  ⟨img, payload.time_alive, name, "http://backend:8000/containers/callback"⟩

/-- The registration record the deploy handler builds from the orchestrator
response for image `img`. -/
def containerDataOf (w : DeployWorld) (img : String)
    (op : OrchesterPayload) : ContainerInternalDTO :=
  ⟨(w.startContainer op).container_id, img, (w.startContainer op).host_port,
   (w.startContainer op).service_url⟩

/-- A concrete deploy world: one exercise with a docker image. -/
def deployWorld : DeployWorld where
  getExercise := fun e =>
    if e = "ex1" then some ⟨"Pwn 101", some "registry/pwn101:v1"⟩ else none
  startContainer := fun _ => ⟨"cid-42", 31337, "http://host:31337"⟩
  registerContainerResp := fun _ _ => "registered"

/-- C2: for every admin request, `deploy_exercise_infrastructure` fails with
HTTP 400 and calls neither downstream service beyond `get_exercise` when the
exercise is missing or has no (or an empty) `docker_image`; otherwise it
calls the orchestrator's `start_container` first and
`interpreter.register_container` second, with `docker_id`, `port` and
`connection` taken from the orchestrator response (`container_id`,
`host_port`, `service_url`) and `image_tag` taken from the exercise's
`docker_image`. -/
theorem deploy_orchestration_order (w : DeployWorld) (ex_id : String)
    (payload : ContainerRequestDTO) (user : AuthToken)
    (hadmin : user.role = "admin") :
    ((w.getExercise ex_id = none ∨
        (∃ exercise, w.getExercise ex_id = some exercise ∧
          (exercise.docker_image = none ∨ exercise.docker_image = some ""))) →
      deploy_exercise_infrastructure w ex_id payload user =
        (.error ⟨400, "Exercício sem imagem Docker configurada"⟩,
         [Call.getExercise ex_id])) ∧
    (∀ exercise img, w.getExercise ex_id = some exercise →
      exercise.docker_image = some img → img ≠ "" →
      deploy_exercise_infrastructure w ex_id payload user =
        (.ok (w.registerContainerResp
            (containerDataOf w img (orchPayloadOf img payload exercise.name)) ex_id),
         [Call.getExercise ex_id,
          Call.startContainer (orchPayloadOf img payload exercise.name),
          Call.registerContainer
            (containerDataOf w img (orchPayloadOf img payload exercise.name))
            ex_id])) := by
  constructor
  · rintro (hmiss | ⟨exercise, hex, himg | himg⟩)
    · simp [deploy_exercise_infrastructure, hadmin, hmiss]
    · simp [deploy_exercise_infrastructure, hadmin, hex, himg]
    · simp [deploy_exercise_infrastructure, hadmin, hex, himg]
  · intro exercise img hex himg hne
    simp [deploy_exercise_infrastructure, hadmin, hex, himg, hne,
      orchPayloadOf, containerDataOf]

/-- Witness for C2: an admin deploying `ex1` in the concrete world gets the
container provisioned and then registered, in that order, with the fields
wired through as the claim states. -/
theorem deploy_orchestration_order_witness :
    deploy_exercise_infrastructure deployWorld "ex1" ⟨3600⟩ ⟨"a1", "root", "admin"⟩ =
      (.ok "registered",
       [Call.getExercise "ex1",
        Call.startContainer
          ⟨"registry/pwn101:v1", 3600, "Pwn 101",
           "http://backend:8000/containers/callback"⟩,
        Call.registerContainer
          ⟨"cid-42", "registry/pwn101:v1", 31337, "http://host:31337"⟩ "ex1"]) := by
  have h := (deploy_orchestration_order deployWorld "ex1" ⟨3600⟩
      ⟨"a1", "root", "admin"⟩ rfl).2 ⟨"Pwn 101", some "registry/pwn101:v1"⟩
      "registry/pwn101:v1" (by decide) (by decide) (by decide)
  exact h.trans rfl

/-- A concrete world for the global exercise library. -/
def listWorld : ExercisesListWorld := ⟨[⟨"ex1"⟩, ⟨"ex2"⟩]⟩

/-- C3 (code bug): the docstring of `list_all_exercises` says only admins
may see the global exercise library, but the handler performs no role check:
a caller with role "student" receives the full library and the downstream
`interpreter.list_all_exercises` call is made, instead of the documented
HTTP 403 rejection. -/
theorem list_all_exercises_no_role_check :
    list_all_exercises listWorld ⟨"u1", "alice", "student"⟩ =
      (.ok [⟨"ex1"⟩, ⟨"ex2"⟩], [Call.interpListAllExercises]) ∧
    Call.interpListAllExercises ∈
      (list_all_exercises listWorld ⟨"u1", "alice", "student"⟩).2 := by
  constructor
  · rfl
  · simp [list_all_exercises]

/-- C4 counterexample: the claim says every downstream response with status
code ≥ 400 yields an `HTTPException` with an equal status code, but a
downstream 500 response makes `_request` raise HTTP 502, and 502 ≠ 500. -/
theorem interpreter_passthrough_counterexample :
    _request (.response 500 none "boom") =
      .error ⟨502, "Erro interno no Interpreter."⟩ ∧ (502 : Nat) ≠ 500 :=
  ⟨rfl, by decide⟩

/-- C4 (amended): `_request` maps outcomes as follows: a 404 or 204 response
yields `None`; every other 4xx response raises an `HTTPException` whose
status code equals the downstream status code and whose detail is the
downstream body's `detail` field (with a default when absent); every 5xx
response raises HTTP 502; and every transport-level request error raises an
application-level `HTTPException` (HTTP 503) rather than propagating the
transport exception. -/
theorem interpreter_error_mapping (status_code : Nat) (detail : Option String)
    (body excMsg : String) :
    (status_code = 404 ∨ status_code = 204 →
      _request (.response status_code detail body) = .ok none) ∧
    (400 ≤ status_code → status_code < 500 → status_code ≠ 404 →
      _request (.response status_code detail body) =
        .error ⟨status_code, detail.getD "Erro na requisição ao Interpreter"⟩) ∧
    (500 ≤ status_code →
      _request (.response status_code detail body) =
        .error ⟨502, "Erro interno no Interpreter."⟩) ∧
    (_request (.requestError excMsg) =
      .error ⟨503, "Falha de conexão: " ++ excMsg⟩) := by
  refine ⟨?_, ?_, ?_, rfl⟩
  · rintro (h | h) <;> simp [_request, h]
  · intro h400 h500 h404
    have h204 : status_code ≠ 204 := by omega
    simp [_request, h404, h204, h400, h500]
  · intro h500
    have h404 : status_code ≠ 404 := by omega
    have h204 : status_code ≠ 204 := by omega
    have hlt : ¬ status_code < 500 := by omega
    simp [_request, h404, h204, hlt, h500]

/-- Witness for C4 (amended): a downstream 403 response with a detail field
is passed through with its own status code and detail. -/
theorem interpreter_error_mapping_witness :
    _request (.response 403 (some "Acesso negado") "body") =
      .error ⟨403, "Acesso negado"⟩ :=
  (interpreter_error_mapping 403 (some "Acesso negado") "body" "x").2.1
    (by decide) (by decide) (by decide)

/-- C5: inside the competition window, `submit_flag` forwards to
`interpreter.submit_flag` if and only if some exercise returned by
`interpreter.get_competition_exercises` for the payload's competition has
the payload's exercise id; otherwise it fails with HTTP 400 and no
downstream `submit_flag` call is made. -/
theorem submit_flag_membership (w : SubmitFlagWorld) (now : Int)
    (payload : SolveSubmitDTO) (user : AuthToken) (comp : Competition)
    (s e : Int) (hcomp : w.getCompetition payload.competitions_id = some comp)
    (hs : ensure_utc comp.start_date = some s)
    (he : ensure_utc comp.end_date = some e)
    (hstart : s ≤ now) (hend : now ≤ e) :
    ((∃ ex ∈ w.getCompetitionExercises payload.competitions_id,
        ex.id = payload.exercises_id) →
      submit_flag w now payload user =
        (.ok (w.submitFlagResp payload user.id),
         [Call.getCompetition payload.competitions_id,
          Call.getCompetitionExercises payload.competitions_id,
          Call.interpSubmitFlag payload user.id])) ∧
    ((¬ ∃ ex ∈ w.getCompetitionExercises payload.competitions_id,
        ex.id = payload.exercises_id) →
      submit_flag w now payload user =
        (.error ⟨400, "Este exercício não pertence a esta competição"⟩,
         [Call.getCompetition payload.competitions_id,
          Call.getCompetitionExercises payload.competitions_id])) ∧
    (Call.interpSubmitFlag payload user.id ∈ (submit_flag w now payload user).2 ↔
      ∃ ex ∈ w.getCompetitionExercises payload.competitions_id,
        ex.id = payload.exercises_id) := by
  have hnl : ¬ now < s := not_lt.mpr hstart
  have hnl2 : ¬ e < now := not_lt.mpr hend
  have hiff : ((w.getCompetitionExercises payload.competitions_id).any
      (fun ex => ex.id == payload.exercises_id) = true) ↔
      ∃ ex ∈ w.getCompetitionExercises payload.competitions_id,
        ex.id = payload.exercises_id := by
    simp [List.any_eq_true]
  refine ⟨?_, ?_, ?_⟩
  · intro hmem
    simp [submit_flag, hcomp, hs, he, hnl, hnl2, hiff.mpr hmem]
  · intro hmem
    have hb : (w.getCompetitionExercises payload.competitions_id).any
        (fun ex => ex.id == payload.exercises_id) = false := by
      simpa using mt hiff.mp hmem
    simp [submit_flag, hcomp, hs, he, hnl, hnl2, hb]
  · constructor
    · intro hin
      by_cases hmem : ∃ ex ∈ w.getCompetitionExercises payload.competitions_id,
          ex.id = payload.exercises_id
      · exact hmem
      · have hb : (w.getCompetitionExercises payload.competitions_id).any
            (fun ex => ex.id == payload.exercises_id) = false := by
          simpa using mt hiff.mp hmem
        simp [submit_flag, hcomp, hs, he, hnl, hnl2, hb] at hin
    · intro hmem
      simp [submit_flag, hcomp, hs, he, hnl, hnl2, hiff.mpr hmem]

/-- Witness for C5: at `now = 15` inside the window `[10, 20]`, submitting
for the exercise that does belong to the competition reaches the downstream
`submit_flag` call. -/
theorem submit_flag_membership_witness :
    submit_flag sfWorld 15 ⟨"comp1", "ex1", "flagx"⟩ ⟨"u1", "alice", "student"⟩ =
      (.ok "solved",
       [Call.getCompetition "comp1", Call.getCompetitionExercises "comp1",
        Call.interpSubmitFlag ⟨"comp1", "ex1", "flagx"⟩ "u1"]) := by
  have h := (submit_flag_membership sfWorld 15 ⟨"comp1", "ex1", "flagx"⟩
      ⟨"u1", "alice", "student"⟩ sampleComp 10 20 (by decide) (by decide)
      (by decide) (by decide) (by decide)).1 (by decide)
  exact h.trans rfl

/-- A concrete attendance world: user `u1` already attended `comp1`. -/
def attWorld : AttendanceWorld where
  getUserAttendance := fun u => if u = "u1" then [⟨"comp1"⟩] else []
  recordAttendanceResp := fun _ _ => "recorded"

/-- C6: `record_attendance` rejects a duplicate with HTTP 400 and performs
no downstream write when the target user's history already has an entry for
the payload's competition; otherwise it records the attendance for the
target user. -/
theorem record_attendance_duplicate_check (w : AttendanceWorld)
    (payload : AttendanceCreateDTO) (user : AuthToken) :
    ((∃ att ∈ w.getUserAttendance (target_user_id user payload),
        att.competitions_id = payload.competitions_id) →
      record_attendance w payload user =
        (.error ⟨400, "Presença já registrada para este usuário nesta competição."⟩,
         [Call.getUserAttendance (target_user_id user payload)])) ∧
    ((¬ ∃ att ∈ w.getUserAttendance (target_user_id user payload),
        att.competitions_id = payload.competitions_id) →
      record_attendance w payload user =
        (.ok (w.recordAttendanceResp payload (target_user_id user payload)),
         [Call.getUserAttendance (target_user_id user payload),
          Call.recordAttendance payload (target_user_id user payload)])) := by
  have hiff : ((w.getUserAttendance (target_user_id user payload)).any
      (fun att => att.competitions_id == payload.competitions_id) = true) ↔
      ∃ att ∈ w.getUserAttendance (target_user_id user payload),
        att.competitions_id = payload.competitions_id := by
    simp [List.any_eq_true]
  constructor
  · intro hdup
    simp [record_attendance, hiff.mpr hdup]
  · intro hdup
    have hb : (w.getUserAttendance (target_user_id user payload)).any
        (fun att => att.competitions_id == payload.competitions_id) = false := by
      simpa using mt hiff.mp hdup
    simp [record_attendance, hb]

/-- Witness for C6: `u1` already has an attendance for `comp1`, so recording
it again fails with HTTP 400 and no downstream write appears in the trace. -/
theorem record_attendance_duplicate_check_witness :
    record_attendance attWorld ⟨"comp1", none⟩ ⟨"u1", "alice", "student"⟩ =
      (.error ⟨400, "Presença já registrada para este usuário nesta competição."⟩,
       [Call.getUserAttendance "u1"]) := by
  have h := (record_attendance_duplicate_check attWorld ⟨"comp1", none⟩
      ⟨"u1", "alice", "student"⟩).1 (by decide)
  exact h.trans rfl

/-- A concrete scoreboard world: `comp1` has the single participant `u1`. -/
def sbWorld : ScoreboardWorld where
  getCompetitionParticipants := fun c => if c = "comp1" then [⟨"u1"⟩] else []
  getScoreboard := fun c => if c = "comp1" then ["alice: 100"] else []

/-- C7: `get_competition_scoreboard`'s access control: an admin always gets
the scoreboard with no participant check; any other caller gets the
scoreboard if and only if their id appears among the competition's
participants, and is otherwise rejected with HTTP 403 with no downstream
`get_scoreboard` call. -/
theorem scoreboard_rbac (w : ScoreboardWorld) (comp_id : String)
    (user : AuthToken) :
    (user.role = "admin" →
      get_competition_scoreboard w comp_id user =
        (.ok (w.getScoreboard comp_id), [Call.getScoreboard comp_id])) ∧
    (user.role ≠ "admin" →
      ((∃ p ∈ w.getCompetitionParticipants comp_id, p.id = user.id) →
        get_competition_scoreboard w comp_id user =
          (.ok (w.getScoreboard comp_id),
           [Call.getCompetitionParticipants comp_id,
            Call.getScoreboard comp_id])) ∧
      ((¬ ∃ p ∈ w.getCompetitionParticipants comp_id, p.id = user.id) →
        get_competition_scoreboard w comp_id user =
          (.error ⟨403, "Você precisa estar inscrito nesta competição para ver o placar."⟩,
           [Call.getCompetitionParticipants comp_id]))) := by
  have hiff : ((w.getCompetitionParticipants comp_id).any
      (fun p => p.id == user.id) = true) ↔
      ∃ p ∈ w.getCompetitionParticipants comp_id, p.id = user.id := by
    simp [List.any_eq_true]
  refine ⟨?_, ?_⟩
  · intro hadmin
    simp [get_competition_scoreboard, hadmin]
  · intro hrole
    constructor
    · intro hmem
      simp [get_competition_scoreboard, hrole, hiff.mpr hmem]
    · intro hmem
      have hb : (w.getCompetitionParticipants comp_id).any
          (fun p => p.id == user.id) = false := by
        simpa using mt hiff.mp hmem
      simp [get_competition_scoreboard, hrole, hb]

/-- Witness for C7: the student `u2` is not a participant of `comp1`, so the
handler rejects with HTTP 403 and never calls `get_scoreboard`. -/
theorem scoreboard_rbac_witness :
    get_competition_scoreboard sbWorld "comp1" ⟨"u2", "bob", "student"⟩ =
      (.error ⟨403, "Você precisa estar inscrito nesta competição para ver o placar."⟩,
       [Call.getCompetitionParticipants "comp1"]) := by
  have h := ((scoreboard_rbac sbWorld "comp1" ⟨"u2", "bob", "student"⟩).2
      (by decide)).2 (by decide)
  exact h.trans rfl

/-- A concrete connection world: `ex1` has an active container. -/
def connWorld : ConnectionWorld where
  getContainerByExercise := fun e =>
    if e = "ex1" then some ⟨true, "10.0.0.5", 31337⟩ else none

/-- C8: in `get_connection_info` the `comp_id` query parameter (and the
caller's identity and role) has no influence on the result: with identical
downstream container state, any two values of `comp_id` and any two
authenticated users yield the same response; and whenever the exercise's
container is active, any authenticated user obtains its connection and
port. -/
theorem connection_info_comp_id_irrelevant (w : ConnectionWorld)
    (ex_id comp_id₁ comp_id₂ : String) (user₁ user₂ : AuthToken) :
    get_connection_info w ex_id comp_id₁ user₁ =
      get_connection_info w ex_id comp_id₂ user₂ ∧
    (∀ container, w.getContainerByExercise ex_id = some container →
      container.is_active = true →
      get_connection_info w ex_id comp_id₁ user₁ =
        (.ok (container.connection, container.port),
         [Call.getContainerByExercise ex_id])) := by
  constructor
  · rfl
  · intro container hc hact
    simp [get_connection_info, hc, hact]

/-- Witness for C8: two different `comp_id` values and two different users
yield the same response for `ex1`, whose active container's data is
returned. -/
theorem connection_info_comp_id_irrelevant_witness :
    get_connection_info connWorld "ex1" "compA" ⟨"u1", "alice", "student"⟩ =
      get_connection_info connWorld "ex1" "compB" ⟨"u2", "bob", "student"⟩ ∧
    get_connection_info connWorld "ex1" "compA" ⟨"u1", "alice", "student"⟩ =
      (.ok ("10.0.0.5", 31337), [Call.getContainerByExercise "ex1"]) := by
  have h := connection_info_comp_id_irrelevant connWorld "ex1" "compA" "compB"
    ⟨"u1", "alice", "student"⟩ ⟨"u2", "bob", "student"⟩
  exact ⟨h.1, (h.2 ⟨true, "10.0.0.5", 31337⟩ (by decide) rfl).trans rfl⟩

/-- C9: for every caller whose role is not "admin", `record_attendance`
targets the caller's own id: `payload.users_id` does not choose the target,
the duplicate check scans the caller's own history, and every downstream
`record_attendance` call in the trace carries the caller's id, so a student
cannot create an attendance record for another user. -/
theorem record_attendance_student_self_target (w : AttendanceWorld)
    (payload : AttendanceCreateDTO) (user : AuthToken)
    (hrole : user.role ≠ "admin") :
    target_user_id user payload = user.id ∧
    record_attendance w payload user =
      (if (w.getUserAttendance user.id).any
          (fun att => att.competitions_id == payload.competitions_id)
       then (.error ⟨400, "Presença já registrada para este usuário nesta competição."⟩,
             [Call.getUserAttendance user.id])
       else (.ok (w.recordAttendanceResp payload user.id),
             [Call.getUserAttendance user.id,
              Call.recordAttendance payload user.id])) ∧
    (∀ p uid, Call.recordAttendance p uid ∈ (record_attendance w payload user).2 →
      uid = user.id) := by
  have htarget : target_user_id user payload = user.id := by
    cases hp : payload.users_id with
    | none => simp [target_user_id, hp]
    | some uid => simp [target_user_id, hp, hrole]
  refine ⟨htarget, ?_, ?_⟩
  · by_cases hb : (w.getUserAttendance user.id).any
        (fun att => att.competitions_id == payload.competitions_id) = true
    · simp [record_attendance, htarget, hb]
    · simp [record_attendance, htarget, hb]
  · intro p uid hmem
    by_cases hb : (w.getUserAttendance user.id).any
        (fun att => att.competitions_id == payload.competitions_id) = true
    · simp [record_attendance, htarget, hb] at hmem
    · simp [record_attendance, htarget, hb] at hmem
      exact hmem.2

/-- Witness for C9: a student who sets `users_id` to another user still
targets their own id. -/
theorem record_attendance_student_self_target_witness :
    target_user_id ⟨"u1", "alice", "student"⟩ ⟨"comp2", some "victim"⟩ = "u1" :=
  (record_attendance_student_self_target attWorld ⟨"comp2", some "victim"⟩
    ⟨"u1", "alice", "student"⟩ (by decide)).1

/-- C10: `_request` yields `None` both for a downstream 404 and for a
downstream 204, so callers cannot distinguish "resource not found" from a
successful no-content operation; in particular `delete_exercise` yields the
same `None` whether the deletion succeeded with 204 or the exercise did not
exist (404). -/
theorem delete_exercise_404_204_none (d₁ d₂ : Option String) (b₁ b₂ : String) :
    _request (.response 404 d₁ b₁) = .ok none ∧
    _request (.response 204 d₂ b₂) = .ok none ∧
    delete_exercise (.response 204 d₂ b₂) =
      delete_exercise (.response 404 d₁ b₁) :=
  ⟨rfl, rfl, rfl⟩

end Lycosidae
